import Mathlib

/-!
Shallow embedding of the FluentControl automation client
(`fluent_control_automation.py`, `fluent_control_examples.py`) and proofs of
the specified properties.

Python runtime values that can appear in request payloads are modelled by the
inductive `PyValue`.  Python floats carry no arithmetic in the embedded code
(they are only constructed, copied and compared), so they are modelled as
rationals.  `dataclasses.asdict` is translated field by field; note that
`asdict` does NOT turn `Enum` members into their `.value` string — it deep
copies them unchanged, which is captured by the `PyValue.enumObj`
constructor (a Python `Enum` member, not JSON-serializable).
-/

namespace FluentControl

/-- A Python runtime value as used by the automation module.  `enumObj` is a
Python `Enum` member carrying its identifier name and its declared string
value; `json.dumps` rejects it. -/
inductive PyValue where
  | str (s : String)
  | num (q : ℚ)
  | int (n : ℤ)
  | bool (b : Bool)
  | null
  | list (items : List PyValue)
  | dict (entries : List (String × PyValue))
  | enumObj (idName value : String)
deriving Repr

/-- Lookup of a key in a Python dict, first match wins (Python dicts have
unique keys; the payloads built by the client use literal distinct keys). -/
def dictLookup (entries : List (String × PyValue)) (key : String) : Option PyValue :=
  match entries with
  | [] => Option.none
  | (k, v) :: rest => if k == key then some v else dictLookup rest key

/-- Embedding of `d[key]`-style lookup on a `PyValue` that is expected to be a dict. -/
def pyDictLookup (v : PyValue) (key : String) : Option PyValue :=
  match v with
  | .dict es => dictLookup es key
  | _ => Option.none

mutual

/-- Whether `json.dumps` accepts the value (the default encoder rejects
`Enum` members). -/
def jsonSerializable : PyValue → Bool
  | .str _ => true
  | .num _ => true
  | .int _ => true
  | .bool _ => true
  | .null => true
  | .list items => jsonSerializableList items
  | .dict entries => jsonSerializableEntries entries
  | .enumObj _ _ => false

/-- Conjunction of `jsonSerializable` over the elements of a list. -/
def jsonSerializableList : List PyValue → Bool
  | [] => true
  | v :: rest => jsonSerializable v && jsonSerializableList rest

/-- Conjunction of `jsonSerializable` over the values of a dict. -/
def jsonSerializableEntries : List (String × PyValue) → Bool
  | [] => true
  | (_, v) :: rest => jsonSerializable v && jsonSerializableEntries rest

end

/-- Python truthiness (`if x:`) on the values the drivers test. -/
def pyTruthy : PyValue → Bool
  | .str s => !(s == "")
  | .num q => !(q == 0)
  | .int n => !(n == 0)
  | .bool b => b
  | .null => false
  | .list items => !items.isEmpty
  | .dict entries => !entries.isEmpty
  | .enumObj _ _ => true

/-- Python `str()` as used when a value is interpolated into an f-string URL.
Strings pass through unchanged; the remaining renderings are only
approximations of `repr`-style output and are never relied on by a theorem. -/
def pyStr : PyValue → String
  | .str s => s
  | .int n => toString n
  | .num q => toString q
  | .bool b => if b then "True" else "False"
  | .null => "None"
  | .list _ => "[...]"
  | .dict _ => "\x7b...\x7d"
  | .enumObj idName _ => idName

/-- The `LabwareType` enum (fluent_control_automation.py lines 32-43). -/
inductive LabwareType where
  | MICROPLATE_96
  | MICROPLATE_384
  | TUBE_RACK_24
  | TUBE_RACK_48
  | TUBE_RACK_96
  | RESERVOIR
  | TIP_RACK_96
  | TIP_RACK_384
  | ADAPTER_PLATE
  | CUSTOM
deriving Repr, DecidableEq

/-- The declared string value of each `LabwareType` member. -/
def LabwareType.value : LabwareType → String
  | .MICROPLATE_96 => "96-well microplate"
  | .MICROPLATE_384 => "384-well microplate"
  | .TUBE_RACK_24 => "24-tube rack"
  | .TUBE_RACK_48 => "48-tube rack"
  | .TUBE_RACK_96 => "96-tube rack"
  | .RESERVOIR => "reservoir"
  | .TIP_RACK_96 => "96-tip rack"
  | .TIP_RACK_384 => "384-tip rack"
  | .ADAPTER_PLATE => "adapter plate"
  | .CUSTOM => "custom"

/-- The Python identifier name of each `LabwareType` member. -/
def LabwareType.idName : LabwareType → String
  | .MICROPLATE_96 => "MICROPLATE_96"
  | .MICROPLATE_384 => "MICROPLATE_384"
  | .TUBE_RACK_24 => "TUBE_RACK_24"
  | .TUBE_RACK_48 => "TUBE_RACK_48"
  | .TUBE_RACK_96 => "TUBE_RACK_96"
  | .RESERVOIR => "RESERVOIR"
  | .TIP_RACK_96 => "TIP_RACK_96"
  | .TIP_RACK_384 => "TIP_RACK_384"
  | .ADAPTER_PLATE => "ADAPTER_PLATE"
  | .CUSTOM => "CUSTOM"

/-- The `PositionStatus` enum (fluent_control_automation.py lines 46-51). -/
inductive PositionStatus where
  | EMPTY
  | OCCUPIED
  | RESERVED
  | ERROR
deriving Repr, DecidableEq

/-- The declared string value of each `PositionStatus` member. -/
def PositionStatus.value : PositionStatus → String
  | .EMPTY => "empty"
  | .OCCUPIED => "occupied"
  | .RESERVED => "reserved"
  | .ERROR => "error"

/-- The Python identifier name of each `PositionStatus` member. -/
def PositionStatus.idName : PositionStatus → String
  | .EMPTY => "EMPTY"
  | .OCCUPIED => "OCCUPIED"
  | .RESERVED => "RESERVED"
  | .ERROR => "ERROR"

/-- The `LabwarePosition` dataclass (fluent_control_automation.py lines 54-62). -/
structure LabwarePosition where
  position_id : String
  labware_type : LabwareType
  barcode : Option String := Option.none
  status : PositionStatus := PositionStatus.EMPTY
  description : Option String := Option.none
  custom_properties : Option (List (String × PyValue)) := Option.none
deriving Repr

/-- The `TransferParameters` dataclass (fluent_control_automation.py lines 65-80).
Floats are modelled as rationals; optional tuning fields default to `None`. -/
structure TransferParameters where
  source_position : String
  destination_position : String
  volume_ul : ℚ
  liquid_class : String
  tip_type : String
  aspiration_speed : Option ℚ := Option.none
  dispense_speed : Option ℚ := Option.none
  air_gap : Option ℚ := Option.none
  touch_off : Option Bool := Option.none
  mix_cycles : Option ℤ := Option.none
  mix_volume : Option ℚ := Option.none
  blow_out : Option Bool := Option.none
  retract_distance : Option ℚ := Option.none
deriving Repr, DecidableEq

/-- The `asdict` image of an `Optional[str]` field (`None` stays `None`). -/
def optStrVal : Option String → PyValue
  | Option.none => .null
  | some s => .str s

/-- The `asdict` image of an `Optional[float]` field. -/
def optNumVal : Option ℚ → PyValue
  | Option.none => .null
  | some q => .num q

/-- The `asdict` image of an `Optional[bool]` field. -/
def optBoolVal : Option Bool → PyValue
  | Option.none => .null
  | some b => .bool b

/-- The `asdict` image of an `Optional[int]` field. -/
def optIntVal : Option ℤ → PyValue
  | Option.none => .null
  | some n => .int n

/-- Embedding of `dataclasses.asdict` on a `LabwarePosition`: fields in declaration order;
`Enum` members are deep-copied unchanged (they stay enum objects, they are
NOT replaced by their `.value` string). -/
def LabwarePosition.asdict (p : LabwarePosition) : PyValue :=
  .dict
    [ ("position_id", .str p.position_id)
    , ("labware_type", .enumObj p.labware_type.idName p.labware_type.value)
    , ("barcode", optStrVal p.barcode)
    , ("status", .enumObj p.status.idName p.status.value)
    , ("description", optStrVal p.description)
    , ("custom_properties",
        match p.custom_properties with
        | Option.none => .null
        | some es => .dict es)
    ]

/-- Embedding of `dataclasses.asdict` on a `TransferParameters`: fields in declaration
order, every value deep-copied unchanged. -/
def TransferParameters.asdict (t : TransferParameters) : PyValue :=
  .dict
    [ ("source_position", .str t.source_position)
    , ("destination_position", .str t.destination_position)
    , ("volume_ul", .num t.volume_ul)
    , ("liquid_class", .str t.liquid_class)
    , ("tip_type", .str t.tip_type)
    , ("aspiration_speed", optNumVal t.aspiration_speed)
    , ("dispense_speed", optNumVal t.dispense_speed)
    , ("air_gap", optNumVal t.air_gap)
    , ("touch_off", optBoolVal t.touch_off)
    , ("mix_cycles", optIntVal t.mix_cycles)
    , ("mix_volume", optNumVal t.mix_volume)
    , ("blow_out", optBoolVal t.blow_out)
    , ("retract_distance", optNumVal t.retract_distance)
    ]

/-- An HTTP response as the client observes it: the status code and the
parsed JSON body (`response.json()`). -/
structure HttpResponse where
  status : ℕ
  body : PyValue
deriving Repr

/-- The Python exceptions the embedded code can raise. -/
inductive PyError where
  | typeError (msg : String)
  | httpError (resp : HttpResponse)
  | valueError (msg : String)
  | attributeError (msg : String)
deriving Repr

/-- One HTTP request as issued by `_make_request`; `sessionId` records the
session-id argument of session-scoped operations (none for the others). -/
structure RequestRecord where
  method : String
  url : String
  payload : Option PyValue
  sessionId : Option String
deriving Repr

/-- Embedding of `str.rstrip` with one strip character. -/
def rstripChar (c : Char) (s : String) : String :=
  String.mk ((s.toList.reverse.dropWhile (fun d => d == c)).reverse)

/-- Truthiness of an optional string argument (`if api_key:` on a
`str = None` parameter): `None` and the empty string are falsy. -/
def pyTruthyStrOpt : Option String → Bool
  | Option.none => false
  | some s => !(s == "")

/-- The `FluentControlClient` state fixed at construction: base URL (trailing
slashes stripped), timeout, the headers this module configures on the
underlying session, and the basic-auth pair if configured. -/
structure FluentControlClient where
  base_url : String
  timeout : ℕ
  headers : List (String × String)
  auth : Option (String × String)
deriving Repr, DecidableEq

/-- Embedding of `FluentControlClient.__init__` (fluent_control_automation.py lines
86-113): bearer auth wins when `api_key` is truthy; basic auth needs both
`username` and `password` truthy; otherwise only the content-type header is
set and no authentication is configured. -/
def FluentControlClient.init (base_url : String)
    (username password api_key : Option String) (timeout : ℕ) :
    FluentControlClient :=
  let burl := rstripChar '/' base_url
  if pyTruthyStrOpt api_key then
    { base_url := burl
      timeout := timeout
      headers :=
        [ ("Authorization", "Bearer " ++ api_key.getD "")
        , ("Content-Type", "application/json") ]
      auth := Option.none }
  else if pyTruthyStrOpt username && pyTruthyStrOpt password then
    { base_url := burl
      timeout := timeout
      headers := [("Content-Type", "application/json")]
      auth := some (username.getD "", password.getD "") }
  else
    { base_url := burl
      timeout := timeout
      headers := [("Content-Type", "application/json")]
      auth := Option.none }

/-- Embedding of `requests.Response.raise_for_status`: raises `HTTPError` (carrying the
response) exactly for client errors 400-499 and server errors 500-599. -/
def raise_for_status (r : HttpResponse) : Option PyError :=
  if 400 ≤ r.status ∧ r.status < 500 then some (.httpError r)
  else if 500 ≤ r.status ∧ r.status < 600 then some (.httpError r)
  else Option.none

/-- Embedding of `FluentControlClient._make_request` (lines 115-157), given the response
the instrument would return.  When a payload is present, the debug log line
evaluates `json.dumps(data)` eagerly (f-string), so a non-serializable
payload raises `TypeError` before any request is sent; `requests` would
reject the same payload.  Otherwise exactly one request is issued and
`raise_for_status` is applied; errors are logged and re-raised unchanged,
with no retry.  Returns the requests issued and the outcome. -/
def FluentControlClient.make_request (c : FluentControlClient)
    (method endpoint : String) (data : Option PyValue) (sid : Option String)
    (resp : HttpResponse) : List RequestRecord × Except PyError HttpResponse :=
  let url := c.base_url ++ endpoint
  match data with
  | some d =>
    if jsonSerializable d then
      match raise_for_status resp with
      | some e => ([⟨method, url, some d, sid⟩], .error e)
      | Option.none => ([⟨method, url, some d, sid⟩], .ok resp)
    else
      ([], .error (.typeError "Object is not JSON serializable"))
  | Option.none =>
    match raise_for_status resp with
    | some e => ([⟨method, url, Option.none, sid⟩], .error e)
    | Option.none => ([⟨method, url, Option.none, sid⟩], .ok resp)

/-- Result of one client operation: the client state after the call, the
requests issued, and the parsed JSON body or the raised exception. -/
structure OpResult where
  client : FluentControlClient
  trace : List RequestRecord
  result : Except PyError PyValue
deriving Repr

/-- Embedding of `get_instrument_status` (lines 159-162). -/
def FluentControlClient.get_instrument_status (c : FluentControlClient)
    (resp : HttpResponse) : OpResult :=
  let mr := c.make_request "GET" "/api/v1/status" Option.none Option.none resp
  ⟨c, mr.1, mr.2.map (fun r => r.body)⟩

/-- Embedding of `get_deck_layout` (lines 164-167). -/
def FluentControlClient.get_deck_layout (c : FluentControlClient)
    (resp : HttpResponse) : OpResult :=
  let mr := c.make_request "GET" "/api/v1/deck/layout" Option.none Option.none resp
  ⟨c, mr.1, mr.2.map (fun r => r.body)⟩

/-- The `layout_data` payload built by `post_deck_layout` (lines 180-184);
`ts` is the `time.time()` sample. -/
def deckLayoutData (positions : List LabwarePosition) (ts : ℚ) : PyValue :=
  .dict
    [ ("positions", .list (positions.map LabwarePosition.asdict))
    , ("timestamp", .num ts)
    , ("version", .str "1.0") ]

/-- Embedding of `post_deck_layout` (lines 169-188). -/
def FluentControlClient.post_deck_layout (c : FluentControlClient)
    (positions : List LabwarePosition) (ts : ℚ) (resp : HttpResponse) : OpResult :=
  let mr := c.make_request "POST" "/api/v1/deck/layout"
    (some (deckLayoutData positions ts)) Option.none resp
  ⟨c, mr.1, mr.2.map (fun r => r.body)⟩

/-- Python `int()` on a float: truncation toward zero. -/
def pyIntOfFloat (q : ℚ) : ℤ :=
  if 0 ≤ q then Rat.floor q else -(Rat.floor (-q))

/-- The `session_data` payload built by `post_transfer_session` (lines
201-206); `t1` is the `time.time()` sample taken for the session-id hint and
`t2` the one stored as `timestamp` (two separate calls in the source). -/
def sessionData (transfers : List TransferParameters) (t1 t2 : ℚ) : PyValue :=
  .dict
    [ ("transfers", .list (transfers.map TransferParameters.asdict))
    , ("session_id", .str ("session_" ++ toString (pyIntOfFloat t1)))
    , ("timestamp", .num t2)
    , ("status", .str "pending") ]

/-- Embedding of `post_transfer_session` (lines 190-210). -/
def FluentControlClient.post_transfer_session (c : FluentControlClient)
    (transfers : List TransferParameters) (t1 t2 : ℚ) (resp : HttpResponse) :
    OpResult :=
  let mr := c.make_request "POST" "/api/v1/transfers/session"
    (some (sessionData transfers t1 t2)) Option.none resp
  ⟨c, mr.1, mr.2.map (fun r => r.body)⟩

/-- Embedding of `start_transfer_session` (lines 212-215). -/
def FluentControlClient.start_transfer_session (c : FluentControlClient)
    (session_id : String) (resp : HttpResponse) : OpResult :=
  let mr := c.make_request "POST"
    ("/api/v1/transfers/session/" ++ session_id ++ "/start")
    Option.none (some session_id) resp
  ⟨c, mr.1, mr.2.map (fun r => r.body)⟩

/-- Embedding of `get_transfer_status` (lines 217-220). -/
def FluentControlClient.get_transfer_status (c : FluentControlClient)
    (session_id : String) (resp : HttpResponse) : OpResult :=
  let mr := c.make_request "GET"
    ("/api/v1/transfers/session/" ++ session_id ++ "/status")
    Option.none (some session_id) resp
  ⟨c, mr.1, mr.2.map (fun r => r.body)⟩

/-- Embedding of `cancel_transfer_session` (lines 222-225). -/
def FluentControlClient.cancel_transfer_session (c : FluentControlClient)
    (session_id : String) (resp : HttpResponse) : OpResult :=
  let mr := c.make_request "POST"
    ("/api/v1/transfers/session/" ++ session_id ++ "/cancel")
    Option.none (some session_id) resp
  ⟨c, mr.1, mr.2.map (fun r => r.body)⟩

/-- Python `d.get(key, dflt)`: on a dict returns the value or the default;
on any other value `.get` does not exist and an `AttributeError` is raised. -/
def pyGet (v : PyValue) (key : String) (dflt : PyValue) : Except PyError PyValue :=
  match v with
  | .dict es => .ok ((dictLookup es key).getD dflt)
  | _ => .error (.attributeError "get")

/-- Embedding of the membership test on terminal statuses: Python equality of the
status value with each of the three strings. -/
def isTerminalStatus : PyValue → Bool
  | .str s => s == "completed" || s == "failed" || s == "cancelled"
  | _ => false

/-- Result of the monitoring loop: how many `get_transfer_status` calls were
made, the requests issued, and either the raised exception or the terminal
status observed (`none` when the iteration bound was exhausted without a
terminal status). -/
structure PollResult where
  calls : ℕ
  trace : List RequestRecord
  outcome : Except PyError (Option PyValue)
deriving Repr

/-- The monitoring loop shared by `run_complete_workflow` (examples lines
344-357, `max_attempts = 20`, status default `"unknown"`) and `main`
(automation lines 340-347, bound 10, status default `None`): each iteration
calls `get_transfer_status` once, reads the `status` field with the given
default, stops on a terminal status, otherwise sleeps and re-polls until the
bound is exhausted.  The first argument of the recursion is the remaining
iteration budget, the second the index into the instrument's status
responses.  An exception aborts the loop and propagates. -/
def monitorFrom (c : FluentControlClient) (session_id : String) (dflt : PyValue)
    (statusResps : ℕ → HttpResponse) : ℕ → ℕ → PollResult
  | 0, _ => ⟨0, [], .ok Option.none⟩
  | fuel + 1, i =>
    match c.get_transfer_status session_id (statusResps i) with
    | ⟨_, tr, .error e⟩ => ⟨1, tr, .error e⟩
    | ⟨_, tr, .ok body⟩ =>
      match pyGet body "status" dflt with
      | .error e => ⟨1, tr, .error e⟩
      | .ok status =>
        if isTerminalStatus status then ⟨1, tr, .ok (some status)⟩
        else
          match monitorFrom c session_id dflt statusResps fuel (i + 1) with
          | ⟨k, tr2, out⟩ => ⟨k + 1, tr ++ tr2, out⟩

/-- Result of a workflow driver run: the requests issued and either the
raised exception or the returned value. -/
structure WorkflowResult where
  trace : List RequestRecord
  outcome : Except PyError PyValue
deriving Repr

/-- The session phase of `FluentControlExamples.run_complete_workflow`
(fluent_control_examples.py lines 330-360): POST the transfer session,
read `session_id` from the response, raise
`ValueError("No session ID received from instrument")` when it is falsy,
otherwise start the session, monitor for up to 20 attempts, and return the
session id.  `t1`/`t2` are the two `time.time()` samples taken by
`post_transfer_session`; `sessionResp`, `startResp` and `statusResps` are the
instrument's responses to the successive requests. -/
def run_complete_workflow_sessionPhase (c : FluentControlClient)
    (transfers : List TransferParameters) (t1 t2 : ℚ)
    (sessionResp startResp : HttpResponse) (statusResps : ℕ → HttpResponse) :
    WorkflowResult :=
  match c.post_transfer_session transfers t1 t2 sessionResp with
  | ⟨_, ptr, .error e⟩ => ⟨ptr, .error e⟩
  | ⟨_, ptr, .ok body⟩ =>
    match pyGet body "session_id" .null with
    | .error e => ⟨ptr, .error e⟩
    | .ok sid =>
      if pyTruthy sid then
        match c.start_transfer_session (pyStr sid) startResp with
        | ⟨_, str1, .error e⟩ => ⟨ptr ++ str1, .error e⟩
        | ⟨_, str1, .ok _⟩ =>
          match monitorFrom c (pyStr sid) (.str "unknown") statusResps 20 0 with
          | ⟨_, mtr, .error e⟩ => ⟨ptr ++ str1 ++ mtr, .error e⟩
          | ⟨_, mtr, .ok _⟩ => ⟨ptr ++ str1 ++ mtr, .ok sid⟩
      else
        ⟨ptr, .error (.valueError "No session ID received from instrument")⟩

/-- The session phase of `main` (fluent_control_automation.py lines
328-347): POST the transfer session, read `session_id` with
`response.get('session_id')`; when it is truthy, start the session and
monitor for up to 10 iterations; when it is falsy, the `if session_id:`
block is skipped and the function completes normally — no exception is
raised.  `main` returns `None` either way. -/
def main_sessionPhase (c : FluentControlClient)
    (transfers : List TransferParameters) (t1 t2 : ℚ)
    (sessionResp startResp : HttpResponse) (statusResps : ℕ → HttpResponse) :
    WorkflowResult :=
  match c.post_transfer_session transfers t1 t2 sessionResp with
  | ⟨_, ptr, .error e⟩ => ⟨ptr, .error e⟩
  | ⟨_, ptr, .ok body⟩ =>
    match pyGet body "session_id" .null with
    | .error e => ⟨ptr, .error e⟩
    | .ok sid =>
      if pyTruthy sid then
        match c.start_transfer_session (pyStr sid) startResp with
        | ⟨_, str1, .error e⟩ => ⟨ptr ++ str1, .error e⟩
        | ⟨_, str1, .ok _⟩ =>
          match monitorFrom c (pyStr sid) .null statusResps 10 0 with
          | ⟨_, mtr, .error e⟩ => ⟨ptr ++ str1 ++ mtr, .error e⟩
          | ⟨_, mtr, .ok _⟩ => ⟨ptr ++ str1 ++ mtr, .ok .null⟩
      else
        ⟨ptr, .ok .null⟩

/-- Read back an `Optional[float]` field from its serialized form. -/
def readOptNum : PyValue → Option (Option ℚ)
  | .null => some Option.none
  | .num q => some (some q)
  | _ => Option.none

/-- Read back an `Optional[bool]` field from its serialized form. -/
def readOptBool : PyValue → Option (Option Bool)
  | .null => some Option.none
  | .bool b => some (some b)
  | _ => Option.none

/-- Read back an `Optional[int]` field from its serialized form. -/
def readOptInt : PyValue → Option (Option ℤ)
  | .null => some Option.none
  | .int n => some (some n)
  | _ => Option.none

/-- Read back a `str` field from its serialized form. -/
def readStr : PyValue → Option String
  | .str s => some s
  | _ => Option.none

/-- Read back a `float` field from its serialized form. -/
def readNum : PyValue → Option ℚ
  | .num q => some q
  | _ => Option.none

/-- Modelled from the spec: the source has no deserializer, so this reads a
serialized `TransferParameters` dict back into the record, witnessing the
spec's round-trip property ("serialization round-trips every set field
unchanged").  Each field is read from the key `asdict` wrote it under. -/
def transfer_fromDict (v : PyValue) : Option TransferParameters :=
  match v with
  | .dict es => do
    let source_position ← pyDictLookup (.dict es) "source_position" >>= readStr
    let destination_position ← pyDictLookup (.dict es) "destination_position" >>= readStr
    let volume_ul ← pyDictLookup (.dict es) "volume_ul" >>= readNum
    let liquid_class ← pyDictLookup (.dict es) "liquid_class" >>= readStr
    let tip_type ← pyDictLookup (.dict es) "tip_type" >>= readStr
    let aspiration_speed ← pyDictLookup (.dict es) "aspiration_speed" >>= readOptNum
    let dispense_speed ← pyDictLookup (.dict es) "dispense_speed" >>= readOptNum
    let air_gap ← pyDictLookup (.dict es) "air_gap" >>= readOptNum
    let touch_off ← pyDictLookup (.dict es) "touch_off" >>= readOptBool
    let mix_cycles ← pyDictLookup (.dict es) "mix_cycles" >>= readOptInt
    let mix_volume ← pyDictLookup (.dict es) "mix_volume" >>= readOptNum
    let blow_out ← pyDictLookup (.dict es) "blow_out" >>= readOptBool
    let retract_distance ← pyDictLookup (.dict es) "retract_distance" >>= readOptNum
    pure
      { source_position := source_position
        destination_position := destination_position
        volume_ul := volume_ul
        liquid_class := liquid_class
        tip_type := tip_type
        aspiration_speed := aspiration_speed
        dispense_speed := dispense_speed
        air_gap := air_gap
        touch_off := touch_off
        mix_cycles := mix_cycles
        mix_volume := mix_volume
        blow_out := blow_out
        retract_distance := retract_distance }
  | _ => Option.none

section HelperLemmas

@[simp] lemma jsonSerializable_optNumVal (o : Option ℚ) :
    jsonSerializable (optNumVal o) = true := by cases o <;> rfl

@[simp] lemma jsonSerializable_optBoolVal (o : Option Bool) :
    jsonSerializable (optBoolVal o) = true := by cases o <;> rfl

@[simp] lemma jsonSerializable_optIntVal (o : Option ℤ) :
    jsonSerializable (optIntVal o) = true := by cases o <;> rfl

/-- The `asdict` image of a `TransferParameters` record is JSON-serializable:
it holds only strings, numbers, booleans and `None`. -/
@[simp] lemma jsonSerializable_transfer_asdict (t : TransferParameters) :
    jsonSerializable t.asdict = true := by
  simp [TransferParameters.asdict, jsonSerializable, jsonSerializableEntries]

/-- Every `session_data` payload is JSON-serializable. -/
@[simp] lemma jsonSerializable_sessionData
    (transfers : List TransferParameters) (t1 t2 : ℚ) :
    jsonSerializable (sessionData transfers t1 t2) = true := by
  simp only [sessionData, jsonSerializable, jsonSerializableEntries,
    jsonSerializableList, Bool.and_true, Bool.and_eq_true]
  induction transfers with
  | nil => simp [jsonSerializableList]
  | cons t ts ih =>
    simpa [jsonSerializableList] using ih

/-- A response with a success status passes `raise_for_status`. -/
lemma raise_for_status_ok (r : HttpResponse) (h : r.status < 400) :
    raise_for_status r = Option.none := by
  unfold raise_for_status
  rw [if_neg (by omega), if_neg (by omega)]

/-- A response with a 4xx or 5xx status fails `raise_for_status` with an
`HTTPError` carrying the response. -/
lemma raise_for_status_error (r : HttpResponse)
    (h4 : 400 ≤ r.status) (h6 : r.status < 600) :
    raise_for_status r = some (.httpError r) := by
  unfold raise_for_status
  by_cases h5 : r.status < 500
  · rw [if_pos ⟨h4, h5⟩]
  · rw [if_neg (by omega), if_pos (by omega)]

end HelperLemmas

section Fixtures

/-- The client constructed in the repository's test setup
(`test_fluent_control.py` lines 46-50). -/
def demoClient : FluentControlClient :=
  FluentControlClient.init "http://test.instrument.com"
    (some "test_user") (some "test_pass") Option.none 30

/-- A successful status response whose `status` field is `"pending"`. -/
def pendingResp : HttpResponse :=
  ⟨200, .dict [("status", .str "pending")]⟩

/-- A successful status response whose `status` field is `"completed"`. -/
def completedResp : HttpResponse :=
  ⟨200, .dict [("status", .str "completed"), ("progress", .int 100)]⟩

/-- A bare 200 response with an empty JSON object body. -/
def emptyOkResp : HttpResponse :=
  ⟨200, .dict []⟩

/-- Status responses `[pending, pending, completed, completed, ...]`. -/
def ppcResps : ℕ → HttpResponse :=
  fun i => if i < 2 then pendingResp else completedResp

end Fixtures

/-- Claim C9: no client operation modifies any field of the client state;
after any of the seven operations the client record equals the one fixed at
construction (the Python methods never assign to `self`). -/
theorem c9_client_state_unchanged :
    ∀ (c : FluentControlClient) (resp : HttpResponse) (sid : String)
      (positions : List LabwarePosition) (ts : ℚ)
      (transfers : List TransferParameters) (t1 t2 : ℚ),
      (c.get_instrument_status resp).client = c
      ∧ (c.get_deck_layout resp).client = c
      ∧ (c.post_deck_layout positions ts resp).client = c
      ∧ (c.post_transfer_session transfers t1 t2 resp).client = c
      ∧ (c.start_transfer_session sid resp).client = c
      ∧ (c.get_transfer_status sid resp).client = c
      ∧ (c.cancel_transfer_session sid resp).client = c := by
  intro c resp sid positions ts transfers t1 t2
  exact ⟨rfl, rfl, rfl, rfl, rfl, rfl, rfl⟩

/-- Claim C7: the body that `post_transfer_session` submits is exactly the
serialized transfers plus the client-generated hint
`"session_" ++ int(submission time)`, a timestamp, and `status = "pending"`;
exactly that one request is issued. -/
theorem c7_post_transfer_session_body :
    ∀ (c : FluentControlClient) (transfers : List TransferParameters)
      (t1 t2 : ℚ) (resp : HttpResponse),
      (c.post_transfer_session transfers t1 t2 resp).trace
        = [⟨"POST", c.base_url ++ "/api/v1/transfers/session",
            some (sessionData transfers t1 t2), Option.none⟩]
      ∧ pyDictLookup (sessionData transfers t1 t2) "transfers"
          = some (.list (transfers.map TransferParameters.asdict))
      ∧ pyDictLookup (sessionData transfers t1 t2) "session_id"
          = some (.str ("session_" ++ toString (pyIntOfFloat t1)))
      ∧ pyDictLookup (sessionData transfers t1 t2) "timestamp"
          = some (.num t2)
      ∧ pyDictLookup (sessionData transfers t1 t2) "status"
          = some (.str "pending") := by
  intro c transfers t1 t2 resp
  refine ⟨?_, rfl, rfl, rfl, rfl⟩
  have hs := jsonSerializable_sessionData transfers t1 t2
  simp only [FluentControlClient.post_transfer_session,
    FluentControlClient.make_request, hs, if_true]
  cases hr : raise_for_status resp <;> simp [hr]

/-- Claim C10: when a (truthy) `api_key` is supplied, bearer-token
authentication is configured and basic-auth credentials are ignored even if
also supplied; without an `api_key`, unless both `username` and `password`
are truthy, no authentication is configured at all. -/
theorem c10_auth_configuration :
    ∀ (base_url : String) (username password api_key : Option String)
      (timeout : ℕ),
      (pyTruthyStrOpt api_key = true →
        (FluentControlClient.init base_url username password api_key timeout).headers
          = [ ("Authorization", "Bearer " ++ api_key.getD "")
            , ("Content-Type", "application/json") ]
        ∧ (FluentControlClient.init base_url username password api_key timeout).auth
          = Option.none)
      ∧ (pyTruthyStrOpt api_key = false →
          (pyTruthyStrOpt username && pyTruthyStrOpt password) = false →
          (FluentControlClient.init base_url username password api_key timeout).headers
            = [("Content-Type", "application/json")]
          ∧ (FluentControlClient.init base_url username password api_key timeout).auth
            = Option.none) := by
  intro burl u p k t
  constructor
  · intro hk
    simp [FluentControlClient.init, hk]
  · intro hk hup
    simp [FluentControlClient.init, hk, hup]

/-- Witness for C10 at concrete inputs: with an api key (and basic-auth
credentials also supplied) the bearer header is configured and `auth` is
empty; with only a username supplied neither header nor basic auth is
configured. -/
theorem c10_auth_configuration_witness :
    (FluentControlClient.init "http://x" (some "u") (some "p") (some "k") 30).headers
      = [("Authorization", "Bearer k"), ("Content-Type", "application/json")]
    ∧ (FluentControlClient.init "http://x" (some "u") (some "p") (some "k") 30).auth
      = Option.none
    ∧ (FluentControlClient.init "http://x" (some "u") Option.none Option.none 30).headers
      = [("Content-Type", "application/json")]
    ∧ (FluentControlClient.init "http://x" (some "u") Option.none Option.none 30).auth
      = Option.none := by
  have h1 := (c10_auth_configuration "http://x" (some "u") (some "p") (some "k") 30).1
    (by decide)
  have h2 := (c10_auth_configuration "http://x" (some "u") Option.none Option.none 30).2
    (by decide) (by decide)
  exact ⟨h1.1, h1.2, h2.1, h2.2⟩

@[simp] lemma readOptNum_optNumVal (o : Option ℚ) :
    readOptNum (optNumVal o) = some o := by cases o <;> rfl

@[simp] lemma readOptBool_optBoolVal (o : Option Bool) :
    readOptBool (optBoolVal o) = some o := by cases o <;> rfl

@[simp] lemma readOptInt_optIntVal (o : Option ℤ) :
    readOptInt (optIntVal o) = some o := by cases o <;> rfl

/-- Claim C8: serializing a `TransferParameters` record preserves every
field's value unchanged (each key of the body holds exactly the field's
value, with `None` for unset optional fields), and deserializing the
serialized record yields the original record. -/
theorem c8_transfer_roundtrip :
    ∀ t : TransferParameters, 0 < t.volume_ul →
      transfer_fromDict t.asdict = some t
      ∧ pyDictLookup t.asdict "source_position" = some (.str t.source_position)
      ∧ pyDictLookup t.asdict "destination_position" = some (.str t.destination_position)
      ∧ pyDictLookup t.asdict "volume_ul" = some (.num t.volume_ul)
      ∧ pyDictLookup t.asdict "liquid_class" = some (.str t.liquid_class)
      ∧ pyDictLookup t.asdict "tip_type" = some (.str t.tip_type)
      ∧ pyDictLookup t.asdict "aspiration_speed" = some (optNumVal t.aspiration_speed)
      ∧ pyDictLookup t.asdict "dispense_speed" = some (optNumVal t.dispense_speed)
      ∧ pyDictLookup t.asdict "air_gap" = some (optNumVal t.air_gap)
      ∧ pyDictLookup t.asdict "touch_off" = some (optBoolVal t.touch_off)
      ∧ pyDictLookup t.asdict "mix_cycles" = some (optIntVal t.mix_cycles)
      ∧ pyDictLookup t.asdict "mix_volume" = some (optNumVal t.mix_volume)
      ∧ pyDictLookup t.asdict "blow_out" = some (optBoolVal t.blow_out)
      ∧ pyDictLookup t.asdict "retract_distance" = some (optNumVal t.retract_distance) := by
  intro t _
  refine ⟨?_, rfl, rfl, rfl, rfl, rfl, rfl, rfl, rfl, rfl, rfl, rfl, rfl, rfl⟩
  simp [transfer_fromDict, TransferParameters.asdict, pyDictLookup, dictLookup,
    readStr, readNum]

/-- The transfer record built by `create_transfer_parameters("A1", "A2",
volume_ul=50.0)` (fluent_control_automation.py lines 274-288). -/
def demoTransfer : TransferParameters :=
  { source_position := "A1"
    destination_position := "A2"
    volume_ul := 50
    liquid_class := "Standard"
    tip_type := "Standard_200uL"
    aspiration_speed := some 100
    dispense_speed := some 100
    air_gap := some 5
    touch_off := some true
    mix_cycles := some 3
    mix_volume := some 25
    blow_out := some true
    retract_distance := some 2 }

/-- Witness for C8 at a concrete record: `demoTransfer` has positive volume
and deserializing its serialization yields it back. -/
theorem c8_transfer_roundtrip_witness :
    0 < demoTransfer.volume_ul
    ∧ transfer_fromDict demoTransfer.asdict = some demoTransfer := by
  have hv : 0 < demoTransfer.volume_ul := by norm_num [demoTransfer]
  exact ⟨hv, (c8_transfer_roundtrip demoTransfer hv).1⟩

/-- The labware position of the spec's end-to-end example:
`{id: "A1", type: microplate_96, status: occupied}`. -/
def demoPosition : LabwarePosition :=
  { position_id := "A1"
    labware_type := LabwareType.MICROPLATE_96
    barcode := Option.none
    status := PositionStatus.OCCUPIED
    description := Option.none
    custom_properties := Option.none }

/-- Claim C1 (failing input): `dataclasses.asdict` leaves enum members as
enum objects — the body's `labware_type` is the `Enum` member, not its
declared string value — so the payload is not JSON-serializable and
`post_deck_layout` raises `TypeError` (from the eager
`json.dumps(data)` in `_make_request`) without issuing any request, instead
of submitting the positions with their enum fields as strings. -/
theorem c1_post_deck_layout_enum_bug :
    pyDictLookup demoPosition.asdict "labware_type"
      = some (.enumObj "MICROPLATE_96" "96-well microplate")
    ∧ (pyDictLookup demoPosition.asdict "labware_type"
        ≠ some (.str "96-well microplate"))
    ∧ jsonSerializable (deckLayoutData [demoPosition] 100) = false
    ∧ (demoClient.post_deck_layout [demoPosition] 100 emptyOkResp).result
      = .error (.typeError "Object is not JSON serializable")
    ∧ (demoClient.post_deck_layout [demoPosition] 100 emptyOkResp).trace = [] := by
  refine ⟨rfl, ?_, rfl, rfl, rfl⟩
  intro h
  simp [demoPosition, LabwarePosition.asdict, pyDictLookup, dictLookup] at h

/-- The monitoring loop never makes more status calls than its iteration
budget. -/
lemma monitorFrom_calls_le (c : FluentControlClient) (sid : String)
    (dflt : PyValue) (resps : ℕ → HttpResponse) :
    ∀ (fuel i : ℕ), (monitorFrom c sid dflt resps fuel i).calls ≤ fuel := by
  intro fuel
  induction fuel with
  | zero => intro i; simp [monitorFrom]
  | succ n ih =>
    intro i
    simp only [monitorFrom]
    split
    · simp
    · split
      · simp
      · split
        · simp
        · have h2 := ih (i + 1)
          simp only [PollResult.calls] at h2 ⊢
          omega

/-- Claim C5: the polling loop performs at most `max_attempts` status calls;
on the sequence `[pending, pending, completed]` (with the examples driver's
bound of 20) it performs exactly 3 calls and observes `completed`. -/
theorem c5_poll_bound_and_completed :
    (∀ (c : FluentControlClient) (sid : String) (dflt : PyValue)
       (resps : ℕ → HttpResponse) (fuel i : ℕ),
       (monitorFrom c sid dflt resps fuel i).calls ≤ fuel)
    ∧ (monitorFrom demoClient "S1" (.str "unknown") ppcResps 20 0).calls = 3
    ∧ (monitorFrom demoClient "S1" (.str "unknown") ppcResps 20 0).outcome
        = .ok (some (.str "completed")) := by
  refine ⟨?_, rfl, rfl⟩
  intro c sid dflt resps fuel i
  exact monitorFrom_calls_le c sid dflt resps fuel i

/-- A bodyless request against a 4xx/5xx response: one request is issued and
the `HTTPError` carrying the response is raised. -/
lemma make_request_error_no_data (c : FluentControlClient)
    (method endpoint : String) (sid : Option String) (resp : HttpResponse)
    (h4 : 400 ≤ resp.status) (h6 : resp.status < 600) :
    c.make_request method endpoint Option.none sid resp
      = ([⟨method, c.base_url ++ endpoint, Option.none, sid⟩],
         .error (.httpError resp)) := by
  simp only [FluentControlClient.make_request, raise_for_status_error resp h4 h6]

/-- A request with a serializable payload against a 4xx/5xx response: one
request is issued and the `HTTPError` carrying the response is raised. -/
lemma make_request_error_with_data (c : FluentControlClient)
    (method endpoint : String) (d : PyValue) (sid : Option String)
    (resp : HttpResponse) (hser : jsonSerializable d = true)
    (h4 : 400 ≤ resp.status) (h6 : resp.status < 600) :
    c.make_request method endpoint (some d) sid resp
      = ([⟨method, c.base_url ++ endpoint, some d, sid⟩],
         .error (.httpError resp)) := by
  simp only [FluentControlClient.make_request, hser, if_true,
    raise_for_status_error resp h4 h6]

@[simp] lemma except_map_error {α β : Type} (f : α → β) (e : PyError) :
    Except.map f (Except.error e : Except PyError α) = Except.error e := rfl

@[simp] lemma except_map_ok {α β : Type} (f : α → β) (a : α) :
    Except.map f (Except.ok a : Except PyError α) = Except.ok (f a) := rfl

/-- Claim C4 (amended to statuses 400-599, the ones
`requests.Response.raise_for_status` raises on): any received HTTP response
with status in [400, 600) makes every client operation fail with the
`HTTPError` carrying that response (status code and body), after exactly one
request (no retry), never returning a parsed body as if successful.  For
`post_deck_layout` the payload must serialize, or no request is sent at
all. -/
theorem c4_http_error_fails_operation :
    ∀ (c : FluentControlClient) (resp : HttpResponse),
      400 ≤ resp.status → resp.status < 600 →
      ((c.get_instrument_status resp).result = .error (.httpError resp)
        ∧ (c.get_instrument_status resp).trace.length = 1)
      ∧ ((c.get_deck_layout resp).result = .error (.httpError resp)
        ∧ (c.get_deck_layout resp).trace.length = 1)
      ∧ (∀ (positions : List LabwarePosition) (ts : ℚ),
          jsonSerializable (deckLayoutData positions ts) = true →
          (c.post_deck_layout positions ts resp).result = .error (.httpError resp)
          ∧ (c.post_deck_layout positions ts resp).trace.length = 1)
      ∧ (∀ (transfers : List TransferParameters) (t1 t2 : ℚ),
          (c.post_transfer_session transfers t1 t2 resp).result
            = .error (.httpError resp)
          ∧ (c.post_transfer_session transfers t1 t2 resp).trace.length = 1)
      ∧ (∀ sid : String,
          ((c.start_transfer_session sid resp).result = .error (.httpError resp)
            ∧ (c.start_transfer_session sid resp).trace.length = 1)
          ∧ ((c.get_transfer_status sid resp).result = .error (.httpError resp)
            ∧ (c.get_transfer_status sid resp).trace.length = 1)
          ∧ ((c.cancel_transfer_session sid resp).result = .error (.httpError resp)
            ∧ (c.cancel_transfer_session sid resp).trace.length = 1)) := by
  intro c resp h4 h6
  refine ⟨?_, ?_, ?_, ?_, ?_⟩
  · constructor <;>
      simp [FluentControlClient.get_instrument_status,
        make_request_error_no_data c _ _ _ resp h4 h6]
  · constructor <;>
      simp [FluentControlClient.get_deck_layout,
        make_request_error_no_data c _ _ _ resp h4 h6]
  · intro positions ts hser
    constructor <;>
      simp [FluentControlClient.post_deck_layout,
        make_request_error_with_data c _ _ _ _ resp hser h4 h6]
  · intro transfers t1 t2
    constructor <;>
      simp [FluentControlClient.post_transfer_session,
        make_request_error_with_data c _ _ _ _ resp
          (jsonSerializable_sessionData transfers t1 t2) h4 h6]
  · intro sid
    refine ⟨?_, ?_, ?_⟩ <;> constructor <;>
      simp [FluentControlClient.start_transfer_session,
        FluentControlClient.get_transfer_status,
        FluentControlClient.cancel_transfer_session,
        make_request_error_no_data c _ _ _ resp h4 h6]

/-- Counterexample to C4 as stated: a response with status 600 (≥ 400) is
not raised on by `raise_for_status` — 600 falls outside both the 4xx and the
5xx band — so `get_instrument_status` returns its parsed body as a
success. -/
theorem c4_counterexample :
    400 ≤ (HttpResponse.mk 600 (.dict [("ok", .bool true)])).status
    ∧ (demoClient.get_instrument_status ⟨600, .dict [("ok", .bool true)]⟩).result
      = .ok (.dict [("ok", .bool true)]) := by
  exact ⟨by decide, rfl⟩

/-- Witness for C4 at a concrete 404 response: operations fail with the
`HTTPError` carrying the response, after exactly one request. -/
theorem c4_http_error_fails_operation_witness :
    ((demoClient.get_instrument_status ⟨404, .str "not found"⟩).result
      = .error (.httpError ⟨404, .str "not found"⟩))
    ∧ (demoClient.post_deck_layout [] 0 ⟨404, .str "not found"⟩).trace.length = 1
    ∧ ((demoClient.post_transfer_session [demoTransfer] 100 100
        ⟨404, .str "not found"⟩).result
      = .error (.httpError ⟨404, .str "not found"⟩)) := by
  have h := c4_http_error_fails_operation demoClient ⟨404, .str "not found"⟩
    (by decide) (by decide)
  exact ⟨h.1.1, (h.2.2.1 [] 0 rfl).2, (h.2.2.2.1 [demoTransfer] 100 100).1⟩

/-- Evaluation of `get_transfer_status` against a successful response: one GET request,
parsed body returned. -/
lemma get_transfer_status_ok (c : FluentControlClient) (sid : String)
    (resp : HttpResponse) (h : resp.status < 400) :
    c.get_transfer_status sid resp
      = ⟨c, [⟨"GET", c.base_url ++ ("/api/v1/transfers/session/" ++ sid ++ "/status"),
             Option.none, some sid⟩], .ok resp.body⟩ := by
  simp [FluentControlClient.get_transfer_status, FluentControlClient.make_request,
    raise_for_status_ok resp h]

/-- Evaluation of `post_transfer_session` against a successful response: one POST request
carrying `session_data`, parsed body returned. -/
lemma post_transfer_session_ok (c : FluentControlClient)
    (transfers : List TransferParameters) (t1 t2 : ℚ) (resp : HttpResponse)
    (h : resp.status < 400) :
    c.post_transfer_session transfers t1 t2 resp
      = ⟨c, [⟨"POST", c.base_url ++ "/api/v1/transfers/session",
             some (sessionData transfers t1 t2), Option.none⟩], .ok resp.body⟩ := by
  simp [FluentControlClient.post_transfer_session, FluentControlClient.make_request,
    jsonSerializable_sessionData, raise_for_status_ok resp h]

/-- A successful transfer-session response carrying the instrument's
(authoritative) session id `"SRV1"`, distinct from any client hint. -/
def sidResp : HttpResponse :=
  ⟨201, .dict [("session_id", .str "SRV1")]⟩

/-- A successful transfer-session response that lacks a `session_id`
field. -/
def noSidResp : HttpResponse :=
  ⟨201, .dict [("result", .str "created")]⟩

/-- Claim C2 (amended): when no status response is terminal, the monitoring
loop performs exactly `maxAttempts` status calls — not more — and then
simply exits with no exception of any kind (there is no `PollTimeout` in the
code); the examples driver then returns the session id exactly as on
success, so exhaustion is not distinguishable from completion by an
error. -/
theorem c2_poll_exhaustion_no_error :
    (∀ (c : FluentControlClient) (sid : String) (dflt : PyValue)
       (resps : ℕ → HttpResponse) (maxAttempts i : ℕ),
       (∀ j, (resps j).status < 400
         ∧ ∃ es, (resps j).body = .dict es
           ∧ isTerminalStatus ((dictLookup es "status").getD dflt) = false) →
       (monitorFrom c sid dflt resps maxAttempts i).calls = maxAttempts
       ∧ (monitorFrom c sid dflt resps maxAttempts i).outcome = .ok Option.none)
    ∧ (run_complete_workflow_sessionPhase demoClient [demoTransfer] 100 100
        sidResp emptyOkResp (fun _ => pendingResp)).outcome = .ok (.str "SRV1") := by
  constructor
  · intro c sid dflt resps maxAttempts
    induction maxAttempts with
    | zero => intro i _; exact ⟨rfl, rfl⟩
    | succ n ih =>
      intro i h
      obtain ⟨hst, es, hes, hterm⟩ := h i
      have hcall := get_transfer_status_ok c sid (resps i) hst
      simp only [monitorFrom, hcall, hes, pyGet, dictLookup, hterm,
        Bool.false_eq_true, if_false]
      have h2 := ih (i + 1) h
      simp only [PollResult.calls, PollResult.outcome] at h2 ⊢
      exact ⟨by rw [h2.1], h2.2⟩
  · rfl

/-- Counterexample to C2 as stated: with a status sequence that never
reaches a terminal state, a 5-iteration monitoring run makes exactly 5
status calls but raises nothing — its outcome is a normal `ok`, not any
error — and the examples driver returns the session id as on success. -/
theorem c2_counterexample :
    (monitorFrom demoClient "SRV1" (.str "unknown") (fun _ => pendingResp) 5 0).calls = 5
    ∧ (monitorFrom demoClient "SRV1" (.str "unknown") (fun _ => pendingResp) 5 0).outcome
      = .ok Option.none
    ∧ (run_complete_workflow_sessionPhase demoClient [demoTransfer] 100 100
        sidResp emptyOkResp (fun _ => pendingResp)).trace.length = 22 := by
  exact ⟨rfl, rfl, rfl⟩

/-- Witness for C2's amended theorem at a concrete all-pending sequence with
a bound of 5. -/
theorem c2_poll_exhaustion_no_error_witness :
    (monitorFrom demoClient "S9" (.str "unknown") (fun _ => pendingResp) 5 0).calls = 5
    ∧ (monitorFrom demoClient "S9" (.str "unknown") (fun _ => pendingResp) 5 0).outcome
      = .ok Option.none := by
  refine c2_poll_exhaustion_no_error.1 demoClient "S9" (.str "unknown")
    (fun _ => pendingResp) 5 0 ?_
  intro j
  constructor
  · show pendingResp.status < 400
    decide
  · exact ⟨[("status", .str "pending")], rfl, by decide⟩

/-- Claim C3 (amended): when the session-creation response succeeds but
lacks a `session_id` field, the examples driver raises
`ValueError("No session ID received from instrument")` and issues no start
or status request; the `main` driver also issues neither, but completes
normally without raising anything. -/
theorem c3_missing_session_id :
    ∀ (c : FluentControlClient) (transfers : List TransferParameters)
      (t1 t2 : ℚ) (sessionResp startResp : HttpResponse)
      (statusResps : ℕ → HttpResponse) (es : List (String × PyValue)),
      sessionResp.status < 400 → sessionResp.body = .dict es →
      dictLookup es "session_id" = Option.none →
      ((run_complete_workflow_sessionPhase c transfers t1 t2 sessionResp
          startResp statusResps).outcome
        = .error (.valueError "No session ID received from instrument"))
      ∧ ((run_complete_workflow_sessionPhase c transfers t1 t2 sessionResp
          startResp statusResps).trace
        = [⟨"POST", c.base_url ++ "/api/v1/transfers/session",
            some (sessionData transfers t1 t2), Option.none⟩])
      ∧ ((main_sessionPhase c transfers t1 t2 sessionResp startResp
          statusResps).outcome = .ok .null)
      ∧ ((main_sessionPhase c transfers t1 t2 sessionResp startResp
          statusResps).trace
        = [⟨"POST", c.base_url ++ "/api/v1/transfers/session",
            some (sessionData transfers t1 t2), Option.none⟩]) := by
  intro c transfers t1 t2 sessionResp startResp statusResps es hok hes hlk
  have hpost := post_transfer_session_ok c transfers t1 t2 sessionResp hok
  refine ⟨?_, ?_, ?_, ?_⟩ <;>
    simp only [run_complete_workflow_sessionPhase, main_sessionPhase, hpost,
      hes, pyGet, hlk, Option.getD, pyTruthy, Bool.false_eq_true, if_false]

/-- Counterexample to C3 as stated: with a concrete session-creation
response lacking `session_id`, the `main` workflow driver does not fail at
all — it completes with a normal return and issues only the one POST
(no start, no poll). -/
theorem c3_counterexample :
    (main_sessionPhase demoClient [demoTransfer] 100 100 noSidResp emptyOkResp
      (fun _ => pendingResp)).outcome = .ok .null
    ∧ (main_sessionPhase demoClient [demoTransfer] 100 100 noSidResp emptyOkResp
      (fun _ => pendingResp)).trace.length = 1 := by
  exact ⟨rfl, rfl⟩

/-- Witness for C3's amended theorem at a concrete response without a
`session_id` field. -/
theorem c3_missing_session_id_witness :
    ((run_complete_workflow_sessionPhase demoClient [demoTransfer] 100 100
        noSidResp emptyOkResp (fun _ => pendingResp)).outcome
      = .error (.valueError "No session ID received from instrument"))
    ∧ ((main_sessionPhase demoClient [demoTransfer] 100 100 noSidResp
        emptyOkResp (fun _ => pendingResp)).outcome = .ok .null) := by
  have h := c3_missing_session_id demoClient [demoTransfer] 100 100 noSidResp
    emptyOkResp (fun _ => pendingResp) [("result", .str "created")]
    (by decide) rfl rfl
  exact ⟨h.1, h.2.2.1⟩

/-- The one request issued by `start_transfer_session` carries the session
id it was called with. -/
lemma start_transfer_session_trace (c : FluentControlClient) (sid : String)
    (resp : HttpResponse) :
    (c.start_transfer_session sid resp).trace
      = [⟨"POST", c.base_url ++ ("/api/v1/transfers/session/" ++ sid ++ "/start"),
          Option.none, some sid⟩] := by
  unfold FluentControlClient.start_transfer_session FluentControlClient.make_request
  cases hr : raise_for_status resp <;> simp [hr]

/-- Every request issued by the monitoring loop carries the session id it
was called with. -/
lemma monitorFrom_trace_sessionId (c : FluentControlClient) (sid : String)
    (dflt : PyValue) (resps : ℕ → HttpResponse) :
    ∀ (fuel i : ℕ),
      ((monitorFrom c sid dflt resps fuel i).trace).all
        (fun r => r.sessionId == some sid) = true := by
  have htr : ∀ resp, (c.get_transfer_status sid resp).trace
      = [⟨"GET", c.base_url ++ ("/api/v1/transfers/session/" ++ sid ++ "/status"),
          Option.none, some sid⟩] := by
    intro resp
    unfold FluentControlClient.get_transfer_status FluentControlClient.make_request
    cases hr : raise_for_status resp <;> simp [hr]
  intro fuel
  induction fuel with
  | zero => intro i; simp [monitorFrom]
  | succ n ih =>
    intro i
    simp only [monitorFrom]
    split
    next cl tr e heq =>
      have h1 : tr = _ := ((htr (resps i)).symm.trans (congrArg OpResult.trace heq)).symm
      simp [h1]
    next cl tr body heq =>
      have h1 : tr = _ := ((htr (resps i)).symm.trans (congrArg OpResult.trace heq)).symm
      split
      · simp [h1]
      · split
        · simp [h1]
        · have h2 := ih (i + 1)
          simp only [PollResult.trace] at h2 ⊢
          simp [h1, List.all_append, h2]

/-- Every request in `tr` is either session-unscoped or scoped to the
session id `s`. -/
def usesOnlySessionId (s : String) (tr : List RequestRecord) : Bool :=
  tr.all (fun r => r.sessionId == Option.none || r.sessionId == some s)

/-- Some request in `tr` is scoped to the session id `s`. -/
def mentionsSessionId (s : String) (tr : List RequestRecord) : Bool :=
  tr.any (fun r => r.sessionId == some s)

/-- From the common trace shape of the two drivers (one unscoped POST, one
start request scoped to `s`, then status requests scoped to `s`): all
session-scoped requests use `s`, at least one does, and none uses the
distinct client hint. -/
lemma trace_props_of_shape (s hint : String) (hne : s ≠ hint)
    (p st : RequestRecord) (mtr tr : List RequestRecord)
    (htr : tr = p :: st :: mtr)
    (hp : p.sessionId = Option.none) (hst : st.sessionId = some s)
    (hall : mtr.all (fun r => r.sessionId == some s) = true) :
    usesOnlySessionId s tr = true
    ∧ mentionsSessionId s tr = true
    ∧ mentionsSessionId hint tr = false := by
  subst htr
  rw [List.all_eq_true] at hall
  have hall2 : ∀ r ∈ mtr, r.sessionId = some s := by
    intro r hr
    have h := hall r hr
    simpa [beq_iff_eq] using h
  refine ⟨?_, ?_, ?_⟩
  · simp only [usesOnlySessionId]
    rw [List.all_eq_true]
    intro r hr
    rcases List.mem_cons.mp hr with h | hr2
    · subst h; simp [hp]
    rcases List.mem_cons.mp hr2 with h | hr3
    · subst h; simp [hst]
    · simp [hall2 r hr3]
  · simp [mentionsSessionId, List.any_cons, hst]
  · simp only [mentionsSessionId]
    rw [List.any_eq_false]
    intro r hr
    rcases List.mem_cons.mp hr with h | hr2
    · subst h; simp [hp]
    rcases List.mem_cons.mp hr2 with h | hr3
    · subst h; simp [hst, hne]
    · simp [hall2 r hr3, hne]

/-- Trace shape of the examples driver when the session response supplies a
truthy string session id: one unscoped POST, one start request scoped to
that id, then only status requests scoped to that id. -/
lemma examples_phase_trace (c : FluentControlClient)
    (transfers : List TransferParameters) (t1 t2 : ℚ) (s : String)
    (sessionResp startResp : HttpResponse) (statusResps : ℕ → HttpResponse)
    (es : List (String × PyValue))
    (hok : sessionResp.status < 400) (hes : sessionResp.body = .dict es)
    (hlk : dictLookup es "session_id" = some (.str s)) (hs : (s == "") = false) :
    ∃ mtr : List RequestRecord,
      (run_complete_workflow_sessionPhase c transfers t1 t2 sessionResp
          startResp statusResps).trace
        = ⟨"POST", c.base_url ++ "/api/v1/transfers/session",
            some (sessionData transfers t1 t2), Option.none⟩
          :: ⟨"POST", c.base_url ++ ("/api/v1/transfers/session/" ++ s ++ "/start"),
              Option.none, some s⟩
          :: mtr
      ∧ mtr.all (fun r => r.sessionId == some s) = true := by
  have hpost := post_transfer_session_ok c transfers t1 t2 sessionResp hok
  simp only [run_complete_workflow_sessionPhase, hpost, hes, pyGet, hlk,
    Option.getD, pyTruthy, hs, Bool.not_false, if_true, pyStr]
  cases hst : c.start_transfer_session s startResp with
  | mk cl str1 res =>
    have hstr : str1
        = [⟨"POST", c.base_url ++ ("/api/v1/transfers/session/" ++ s ++ "/start"),
            Option.none, some s⟩] := by
      have h := start_transfer_session_trace c s startResp
      rw [hst] at h
      exact h
    cases res with
    | error e => exact ⟨[], by simp [hstr], by simp⟩
    | ok v =>
      cases hmon : monitorFrom c s (.str "unknown") statusResps 20 0 with
      | mk k mtr out =>
        have hmtr : mtr.all (fun r => r.sessionId == some s) = true := by
          have h := monitorFrom_trace_sessionId c s (.str "unknown") statusResps 20 0
          rw [hmon] at h
          exact h
        cases out with
        | error e => exact ⟨mtr, by simp [hstr], hmtr⟩
        | ok w => exact ⟨mtr, by simp [hstr], hmtr⟩

/-- Trace shape of the `main` driver when the session response supplies a
truthy string session id (same shape, bound 10, status default `None`). -/
lemma main_phase_trace (c : FluentControlClient)
    (transfers : List TransferParameters) (t1 t2 : ℚ) (s : String)
    (sessionResp startResp : HttpResponse) (statusResps : ℕ → HttpResponse)
    (es : List (String × PyValue))
    (hok : sessionResp.status < 400) (hes : sessionResp.body = .dict es)
    (hlk : dictLookup es "session_id" = some (.str s)) (hs : (s == "") = false) :
    ∃ mtr : List RequestRecord,
      (main_sessionPhase c transfers t1 t2 sessionResp startResp
          statusResps).trace
        = ⟨"POST", c.base_url ++ "/api/v1/transfers/session",
            some (sessionData transfers t1 t2), Option.none⟩
          :: ⟨"POST", c.base_url ++ ("/api/v1/transfers/session/" ++ s ++ "/start"),
              Option.none, some s⟩
          :: mtr
      ∧ mtr.all (fun r => r.sessionId == some s) = true := by
  have hpost := post_transfer_session_ok c transfers t1 t2 sessionResp hok
  simp only [main_sessionPhase, hpost, hes, pyGet, hlk,
    Option.getD, pyTruthy, hs, Bool.not_false, if_true, pyStr]
  cases hst : c.start_transfer_session s startResp with
  | mk cl str1 res =>
    have hstr : str1
        = [⟨"POST", c.base_url ++ ("/api/v1/transfers/session/" ++ s ++ "/start"),
            Option.none, some s⟩] := by
      have h := start_transfer_session_trace c s startResp
      rw [hst] at h
      exact h
    cases res with
    | error e => exact ⟨[], by simp [hstr], by simp⟩
    | ok v =>
      cases hmon : monitorFrom c s .null statusResps 10 0 with
      | mk k mtr out =>
        have hmtr : mtr.all (fun r => r.sessionId == some s) = true := by
          have h := monitorFrom_trace_sessionId c s .null statusResps 10 0
          rw [hmon] at h
          exact h
        cases out with
        | error e => exact ⟨mtr, by simp [hstr], hmtr⟩
        | ok w => exact ⟨mtr, by simp [hstr], hmtr⟩

/-- Claim C6: whenever the `post_transfer_session` response supplies a
(truthy, string) `session_id`, both workflow drivers scope every subsequent
`start`/`status`/`cancel` request to exactly that response id — some request
is so scoped, and no request ever carries the client-generated
`"session_" + seconds` hint, even when the two differ. -/
theorem c6_response_session_id_used :
    ∀ (c : FluentControlClient) (transfers : List TransferParameters)
      (t1 t2 : ℚ) (s : String) (sessionResp startResp : HttpResponse)
      (statusResps : ℕ → HttpResponse) (es : List (String × PyValue)),
      sessionResp.status < 400 → sessionResp.body = .dict es →
      dictLookup es "session_id" = some (.str s) → (s == "") = false →
      s ≠ "session_" ++ toString (pyIntOfFloat t1) →
      (usesOnlySessionId s (run_complete_workflow_sessionPhase c transfers t1 t2
          sessionResp startResp statusResps).trace = true
        ∧ mentionsSessionId s (run_complete_workflow_sessionPhase c transfers t1 t2
          sessionResp startResp statusResps).trace = true
        ∧ mentionsSessionId ("session_" ++ toString (pyIntOfFloat t1))
          (run_complete_workflow_sessionPhase c transfers t1 t2
            sessionResp startResp statusResps).trace = false)
      ∧ (usesOnlySessionId s (main_sessionPhase c transfers t1 t2
          sessionResp startResp statusResps).trace = true
        ∧ mentionsSessionId s (main_sessionPhase c transfers t1 t2
          sessionResp startResp statusResps).trace = true
        ∧ mentionsSessionId ("session_" ++ toString (pyIntOfFloat t1))
          (main_sessionPhase c transfers t1 t2
            sessionResp startResp statusResps).trace = false) := by
  intro c transfers t1 t2 s sessionResp startResp statusResps es hok hes hlk hs hne
  obtain ⟨mtr1, htr1, hall1⟩ :=
    examples_phase_trace c transfers t1 t2 s sessionResp startResp statusResps es
      hok hes hlk hs
  obtain ⟨mtr2, htr2, hall2⟩ :=
    main_phase_trace c transfers t1 t2 s sessionResp startResp statusResps es
      hok hes hlk hs
  exact ⟨trace_props_of_shape s _ hne _ _ mtr1 _ htr1 rfl rfl hall1,
         trace_props_of_shape s _ hne _ _ mtr2 _ htr2 rfl rfl hall2⟩

/-- Witness for C6 at concrete inputs: the instrument returns id `"SRV1"`
while the client hint was `"session_100"`; every session-scoped request of
the examples driver uses `"SRV1"` and none uses the hint. -/
theorem c6_response_session_id_used_witness :
    usesOnlySessionId "SRV1"
      (run_complete_workflow_sessionPhase demoClient [demoTransfer] 100 100
        sidResp emptyOkResp (fun _ => pendingResp)).trace = true
    ∧ mentionsSessionId "SRV1"
      (run_complete_workflow_sessionPhase demoClient [demoTransfer] 100 100
        sidResp emptyOkResp (fun _ => pendingResp)).trace = true
    ∧ mentionsSessionId ("session_" ++ toString (pyIntOfFloat 100))
      (run_complete_workflow_sessionPhase demoClient [demoTransfer] 100 100
        sidResp emptyOkResp (fun _ => pendingResp)).trace = false := by
  have h := c6_response_session_id_used demoClient [demoTransfer] 100 100 "SRV1"
    sidResp emptyOkResp (fun _ => pendingResp) [("session_id", .str "SRV1")]
    (by decide) rfl rfl (by decide) (by decide)
  exact h.1

end FluentControl
